import Mathlib

/-!
Verification of the retryable-call and response-extraction core of the
jobalign-ai repository against its specification.

The embedding models, faithfully to the Python source:
* `analyze_with_gemini` (src/UI/gemini_ui.py) — retry loop with marker
  classification on the lowercased error message;
* `analyze_resume_with_inputs` (src/agents/resume_accept.py) — retry loop
  with case-sensitive marker classification;
* `analyze_resume` (src/agents/resume_matcher.py) — input validation plus
  a retry loop classifying by exception type (`RateLimitError` vs others);
* `parse_resume` / `_extract_json` (src/agents/resume_Parser.py) — direct
  JSON parse with greedy brace-span salvage.

The flaky upstream (`model.generate_content` / `client.chat.completions.create`)
is modelled as a function from the attempt index to that attempt's outcome.
Wall-clock sleeping (`time.sleep`) is modelled by recording the requested
durations, in order, in a trace.
-/

namespace JobAlign

/-- Whether `pat` is an initial segment of `cs`. -/
def charsStartWith : List Char → List Char → Bool
  | [], _ => true
  | _ :: _, [] => false
  | a :: as, b :: bs => a == b && charsStartWith as bs

/-- Whether `pat` occurs contiguously inside `cs`; this is Python's
`pat in s` on the underlying character sequences. -/
def charsContain (pat : List Char) : List Char → Bool
  | [] => charsStartWith pat []
  | c :: cs => charsStartWith pat (c :: cs) || charsContain pat cs

/-- Python's substring test `pat in s`. -/
def strContains (s pat : String) : Bool :=
  charsContain pat.toList s.toList

/-- ASCII lowercasing of one character; models Python's `str.lower` on the
ASCII range, which covers every marker string the classifiers use. -/
def lowerChar (c : Char) : Char :=
  if 65 ≤ c.toNat && c.toNat ≤ 90 then Char.ofNat (c.toNat + 32) else c

/-- Python's `s.lower()` on the ASCII range. -/
def lowerStr (s : String) : String :=
  String.mk (s.toList.map lowerChar)

/-- Python whitespace characters stripped by `str.strip()`:
space, tab, newline, carriage return, vertical tab, form feed. -/
def isPyWs (c : Char) : Bool :=
  c == ' ' || c == '\t' || c == '\n' || c == '\r' || c == Char.ofNat 11 || c == Char.ofNat 12

/-- Python's `s.strip()`: remove leading and trailing whitespace. -/
def pyStrip (s : String) : String :=
  String.mk (((s.toList.dropWhile isPyWs).reverse.dropWhile isPyWs).reverse)

/-- The three classification buckets of the error handler. -/
inductive Bucket where
  | rateLimit
  | auth
  | transient
deriving DecidableEq, Repr

/-- Rate-limit markers of `analyze_with_gemini` (gemini_ui.py line 61). -/
def rateMarkersUI : List String := ["429", "rate_limit", "quota", "resource_exhausted"]

/-- Authentication markers of `analyze_with_gemini` (gemini_ui.py line 69). -/
def authMarkersUI : List String := ["api key", "authentication", "401", "403", "invalid_argument"]

/-- Test `any(x in error_msg.lower() for x in [rate markers])` of gemini_ui.py. -/
def isRateUI (msg : String) : Bool :=
  rateMarkersUI.any (fun x => strContains (lowerStr msg) x)

/-- Test `any(x in error_msg.lower() for x in [auth markers])` of gemini_ui.py. -/
def isAuthUI (msg : String) : Bool :=
  authMarkersUI.any (fun x => strContains (lowerStr msg) x)

/-- The if/elif/else classification of gemini_ui.py lines 61-71: the
rate-limit test runs first, the authentication test second, everything
else is the transient bucket. -/
def bucketUI (msg : String) : Bucket :=
  if isRateUI msg then .rateLimit
  else if isAuthUI msg then .auth
  else .transient

/-- Rate-limit markers of `analyze_resume_with_inputs` (resume_accept.py
line 115); matched against the raw message, not a lowercased one. -/
def rateMarkersAccept : List String := ["429", "rate_limit", "quota", "RESOURCE_EXHAUSTED"]

/-- Authentication markers of `analyze_resume_with_inputs` (resume_accept.py
line 125); matched against the raw message. -/
def authMarkersAccept : List String := ["API key", "authentication", "401", "403", "INVALID_ARGUMENT"]

/-- Test `any(x in error_msg for x in [rate markers])` of resume_accept.py —
note: no `.lower()` here, the match is case-sensitive. -/
def isRateAccept (msg : String) : Bool :=
  rateMarkersAccept.any (fun x => strContains msg x)

/-- Test `any(x in error_msg for x in [auth markers])` of resume_accept.py —
case-sensitive. -/
def isAuthAccept (msg : String) : Bool :=
  authMarkersAccept.any (fun x => strContains msg x)

/-- The if/elif/else classification of resume_accept.py lines 115-132. -/
def bucketAccept (msg : String) : Bucket :=
  if isRateAccept msg then .rateLimit
  else if isAuthAccept msg then .auth
  else .transient

/-- One attempt's outcome at the upstream model, as observed inside the
`try:` block. `resp none` models a falsy response object or one without a
`text` attribute; `resp (some t)` models a response whose `text` attribute
is the string `t` (possibly empty); `raised m` models
`model.generate_content` raising an exception whose `str` is `m`. -/
inductive GenOutcome where
  | resp (text : Option String)
  | raised (msg : String)

/-- Message of the `RuntimeError` gemini_ui.py line 55 raises for an empty
or invalid response. -/
def emptyResponseMsg : String := "Received an empty or invalid response from Gemini API."

/-- Terminal outcome of `analyze_with_gemini`. Each error constructor is
one `raise` site of the function; it carries the underlying message. -/
inductive CallResult where
  | success (text : String)
  | rateLimitExceeded (attempts : Nat) (lastMsg : String)
  | authenticationError (msg : String)
  | transientFailure (msg : String)
  | noneReturned
deriving DecidableEq, Repr

/-- Observable trace of one invocation: the terminal result, the sleep
durations requested (seconds, in order), and how many times the upstream
model was called. -/
structure CallTrace (R : Type) where
  result : R
  sleeps : List Nat
  attempts : Nat
deriving DecidableEq, Repr

/-- The `for attempt in range(max_retries)` loop of `analyze_with_gemini`
(gemini_ui.py lines 50-76). `attempt` is the current 0-based index and
`fuel` the number of loop iterations still available
(`fuel = max_retries - attempt`); the Python guard
`attempt < max_retries - 1` is exactly `0 < fuel - 1`, i.e. `0 < n` when
`fuel = n + 1`. Exhausting the loop without returning falls off the end
of the Python function and yields `None` (`noneReturned`). -/
def geminiLoop (f : Nat → GenOutcome) (attempt : Nat) : Nat → CallTrace CallResult
  | 0 => ⟨.noneReturned, [], 0⟩
  | n + 1 =>
    let handle (msg : String) : CallTrace CallResult :=
      match bucketUI msg with
      | .rateLimit =>
        if 0 < n then
          let t := geminiLoop f (attempt + 1) n
          ⟨t.result, 2 ^ attempt :: t.sleeps, t.attempts + 1⟩
        else ⟨.rateLimitExceeded (attempt + 1) msg, [], 1⟩
      | .auth => ⟨.authenticationError msg, [], 1⟩
      | .transient =>
        if 0 < n then
          let t := geminiLoop f (attempt + 1) n
          ⟨t.result, (1 + attempt) :: t.sleeps, t.attempts + 1⟩
        else ⟨.transientFailure msg, [], 1⟩
    match f attempt with
    | .resp (some t) => if t = "" then handle emptyResponseMsg else ⟨.success t, [], 1⟩
    | .resp none => handle emptyResponseMsg
    | .raised msg => handle msg

/-- Model of `analyze_with_gemini(prompt, max_retries)` (gemini_ui.py line 46),
with the upstream abstracted as `f`. Python's `range(max_retries)` runs
`max(max_retries, 0)` iterations, which is `max_retries.toNat`. -/
def analyze_with_gemini (f : Nat → GenOutcome) (max_retries : Int) : CallTrace CallResult :=
  geminiLoop f 0 max_retries.toNat

/-- Terminal outcome of `analyze_resume_with_inputs`' model-calling loop.
All error paths of that loop re-raise the caught exception unchanged
(bare `raise`), so errors are reported by their original message. -/
inductive AcceptResult where
  | success (text : String)
  | reraised (msg : String)
  | noneReturned
deriving DecidableEq, Repr

/-- Message of the `RuntimeError` resume_accept.py line 103 raises when the
response is falsy or lacks a `text` attribute. -/
def invalidResponseMsg : String := "Invalid response from Gemini API"

/-- The `for attempt in range(max_retries)` loop of
`analyze_resume_with_inputs` (resume_accept.py lines 96-132). Differences
from `geminiLoop`, straight from the source: the success check does not
test emptiness of `response.text` (an empty string is returned as
success); classification is case-sensitive; authentication and other
errors re-raise immediately, and the rate-limit bucket re-raises on the
last attempt — no wrapper error objects. -/
def acceptLoop (f : Nat → GenOutcome) (attempt : Nat) : Nat → CallTrace AcceptResult
  | 0 => ⟨.noneReturned, [], 0⟩
  | n + 1 =>
    let handle (msg : String) : CallTrace AcceptResult :=
      match bucketAccept msg with
      | .rateLimit =>
        if 0 < n then
          let t := acceptLoop f (attempt + 1) n
          ⟨t.result, 2 ^ attempt :: t.sleeps, t.attempts + 1⟩
        else ⟨.reraised msg, [], 1⟩
      | .auth => ⟨.reraised msg, [], 1⟩
      | .transient => ⟨.reraised msg, [], 1⟩
    match f attempt with
    | .resp (some t) => ⟨.success t, [], 1⟩
    | .resp none => handle invalidResponseMsg
    | .raised msg => handle msg

/-- Model of `analyze_resume_with_inputs`' model-calling phase (resume_accept.py
lines 94-132), with the upstream abstracted as `f`. -/
def analyze_resume_with_inputs (f : Nat → GenOutcome) (max_retries : Int) : CallTrace AcceptResult :=
  acceptLoop f 0 max_retries.toNat

/-- One attempt's outcome at the OpenAI chat endpoint in resume_matcher.py:
a returned message content, a raised `RateLimitError`, or any other raised
exception. Classification there is by exception type, not message. -/
inductive MatcherOutcome where
  | resp (text : String)
  | rateLimited (msg : String)
  | raised (msg : String)

/-- Terminal outcome of `analyze_resume` (resume_matcher.py). -/
inductive MatcherResult where
  | success (text : String)
  | emptyInput (msg : String)
  | reraisedRateLimit (msg : String)
  | reraisedOther (msg : String)
  | noneReturned
deriving DecidableEq, Repr

/-- The `for attempt in range(max_retries)` loop of `analyze_resume`
(resume_matcher.py lines 54-74): `RateLimitError` backs off `2 ** attempt`
seconds unless on the last attempt (then re-raises); any other exception
re-raises immediately. -/
def matcherLoop (f : Nat → MatcherOutcome) (attempt : Nat) : Nat → CallTrace MatcherResult
  | 0 => ⟨.noneReturned, [], 0⟩
  | n + 1 =>
    match f attempt with
    | .resp t => ⟨.success t, [], 1⟩
    | .rateLimited msg =>
      if 0 < n then
        let t := matcherLoop f (attempt + 1) n
        ⟨t.result, 2 ^ attempt :: t.sleeps, t.attempts + 1⟩
      else ⟨.reraisedRateLimit msg, [], 1⟩
    | .raised msg => ⟨.reraisedOther msg, [], 1⟩

/-- Model of `analyze_resume(job_description, resume_text, max_retries)`
(resume_matcher.py line 14): validates that both inputs are non-blank
after stripping (lines 26-29) before entering the retry loop; the
`ValueError` messages are the source's. -/
def analyze_resume (job_description resume_text : String)
    (f : Nat → MatcherOutcome) (max_retries : Int) : CallTrace MatcherResult :=
  if pyStrip job_description = "" then
    ⟨.emptyInput "Job description cannot be empty", [], 0⟩
  else if pyStrip resume_text = "" then
    ⟨.emptyInput "Resume text cannot be empty", [], 0⟩
  else matcherLoop f 0 max_retries.toNat

/-! ### Response extraction (src/agents/resume_Parser.py) -/

/-- The opening brace character. -/
def lbrace : Char := Char.ofNat 123

/-- The closing brace character. -/
def rbrace : Char := Char.ofNat 125

/-- Index of the first occurrence of `c` in `cs`, if any. -/
def firstIdx (c : Char) : List Char → Option Nat
  | [] => none
  | x :: xs => if x == c then some 0 else (firstIdx c xs).map (· + 1)

/-- Index of the last occurrence of `c` in `cs`, if any. -/
def lastIdx (c : Char) (cs : List Char) : Option Nat :=
  (firstIdx c cs.reverse).map (fun k => cs.length - 1 - k)

/-- Model of `_extract_json` (resume_Parser.py lines 223-231):
`re.search(r"\x7b.*\x7d", text, re.DOTALL)` returns, when it matches, the
substring running from the first opening brace to the last closing brace
(leftmost match start, greedy `.*` under DOTALL); it matches exactly when
some closing brace occurs after the first opening brace. `none` models the
`ValueError("No valid JSON found in LLM response.")` raise. -/
def extract_json (text : String) : Option String :=
  let cs := text.toList
  match firstIdx lbrace cs, lastIdx rbrace cs with
  | some i, some j => if i < j then some (String.mk ((cs.drop i).take (j + 1 - i))) else none
  | _, _ => none

/-- Result of the JSON-handling step of `parse_resume` (lines 203-209).
In Python terms: `ok` is a successful `return json.loads(...)`;
`decodeError` is the `json.JSONDecodeError` escaping when the salvaged
substring fails to parse; `noSpan` is the
`ValueError("No valid JSON found in LLM response.")` from `_extract_json`.
Both failure constructors are `ValueError`s in Python, since
`json.JSONDecodeError` is a subclass of `ValueError`. -/
inductive ExtractResult (J : Type) where
  | ok (record : J)
  | decodeError
  | noSpan
deriving DecidableEq, Repr

/-- The spec's `NoJsonFound` failure: the extraction path raised a
`ValueError` instead of producing a record. True of both failure paths of
`parse_resume`'s JSON step (`json.JSONDecodeError` subclasses
`ValueError`). -/
def isNoJsonFound {J : Type} : ExtractResult J → Bool
  | .ok _ => false
  | .decodeError => true
  | .noSpan => true

/-- The JSON-handling step of `parse_resume` (resume_Parser.py lines
203-209), parameterised by the JSON parser `p` (Python's `json.loads`,
treated as an external collaborator: `some` is a successful parse, `none`
a `json.JSONDecodeError`): try the raw model reply, then the
`_extract_json` span. -/
def salvage {J : Type} (p : String → Option J) (parsed_output : String) : ExtractResult J :=
  match p parsed_output with
  | some v => .ok v
  | none =>
    match extract_json parsed_output with
    | some cleaned =>
      match p cleaned with
      | some v => .ok v
      | none => .decodeError
    | none => .noSpan

/-! A concrete JSON value type and parser, used to evaluate the salvage
logic on the spec's concrete examples. -/

/-- JSON values, as produced by `json.loads`: objects keep their key order
(Python dicts are insertion-ordered). -/
inductive JValue where
  | null
  | bool (b : Bool)
  | num (n : Int)
  | str (s : String)
  | arr (elems : List JValue)
  | obj (fields : List (String × JValue))

/-- Whether a parsed JSON mapping carries key `k` at top level (Python's
`k in d`). -/
def objHasKey (k : String) : JValue → Bool
  | .obj fields => fields.any (fun f => f.1 == k)
  | _ => false

/-- JSON whitespace skipping: `json.loads` ignores space, tab, newline and
carriage return between tokens. -/
def jsonWs (cs : List Char) : List Char :=
  cs.dropWhile (fun c => c == ' ' || c == '\t' || c == '\n' || c == '\r')

/-- Decode one backslash escape inside a JSON string literal. -/
def decodeEscape (e : Char) : Option Char :=
  if e == '"' then some '"'
  else if e == '\\' then some '\\'
  else if e == '/' then some '/'
  else if e == 'n' then some '\n'
  else if e == 't' then some '\t'
  else if e == 'r' then some '\r'
  else if e == 'b' then some (Char.ofNat 8)
  else if e == 'f' then some (Char.ofNat 12)
  else none

/-- Parse the body of a JSON string literal after its opening quote;
returns the decoded content and the input remaining after the closing
quote. -/
def parseStringBody : List Char → Option (List Char × List Char)
  | [] => none
  | c :: cs =>
    if c == '"' then some ([], cs)
    else if c == '\\' then
      match cs with
      | [] => none
      | e :: cs' =>
        match decodeEscape e, parseStringBody cs' with
        | some d, some (body, rest) => some (d :: body, rest)
        | _, _ => none
    else
      match parseStringBody cs with
      | some (body, rest) => some (c :: body, rest)
      | none => none

/-- Digits to a natural number. -/
def digitsToNat (ds : List Char) : Nat :=
  ds.foldl (fun a c => a * 10 + (c.toNat - 48)) 0

mutual

/-- Modelled from the spec: the "attempt direct parse of raw_text" step
delegates to Python's `json.loads`, an external library routine; this is
a reference implementation of its grammar (objects, arrays, strings with
single-character escapes, integers, booleans, null — the fragments the
spec's examples exercise), used only to instantiate the parser parameter
on concrete inputs. Returns the value parsed and the remaining input. -/
def parseVal : Nat → List Char → Option (JValue × List Char)
  | 0, _ => none
  | fuel + 1, cs =>
    match jsonWs cs with
    | [] => none
    | c :: rest =>
      if c == '"' then
        (parseStringBody rest).map (fun p => (.str (String.mk p.1), p.2))
      else if c == lbrace then
        match jsonWs rest with
        | d :: r2 =>
          if d == rbrace then some (.obj [], r2)
          else (parseMembers fuel (d :: r2)).map (fun p => (.obj p.1, p.2))
        | [] => none
      else if c == '[' then
        match jsonWs rest with
        | d :: r2 =>
          if d == ']' then some (.arr [], r2)
          else (parseElems fuel (d :: r2)).map (fun p => (.arr p.1, p.2))
        | [] => none
      else if c == 't' then
        match rest with
        | 'r' :: 'u' :: 'e' :: r => some (.bool true, r)
        | _ => none
      else if c == 'f' then
        match rest with
        | 'a' :: 'l' :: 's' :: 'e' :: r => some (.bool false, r)
        | _ => none
      else if c == 'n' then
        match rest with
        | 'u' :: 'l' :: 'l' :: r => some (.null, r)
        | _ => none
      else if c == '-' then
        match rest with
        | d :: _ =>
          if d.isDigit then
            some (.num (-(digitsToNat (rest.takeWhile Char.isDigit) : Int)),
              rest.dropWhile Char.isDigit)
          else none
        | [] => none
      else if c.isDigit then
        some (.num (digitsToNat ((c :: rest).takeWhile Char.isDigit) : Int),
          (c :: rest).dropWhile Char.isDigit)
      else none

/-- Members of a JSON object after its opening brace (non-empty case):
`"key" : value` pairs separated by commas, ended by a closing brace. -/
def parseMembers : Nat → List Char → Option (List (String × JValue) × List Char)
  | 0, _ => none
  | fuel + 1, cs =>
    match jsonWs cs with
    | c :: rest =>
      if c == '"' then
        match parseStringBody rest with
        | some (key, r1) =>
          match jsonWs r1 with
          | ':' :: r2 =>
            match parseVal fuel r2 with
            | some (v, r3) =>
              match jsonWs r3 with
              | d :: r4 =>
                if d == rbrace then some ([(String.mk key, v)], r4)
                else if d == ',' then
                  match parseMembers fuel r4 with
                  | some (ms, r5) => some ((String.mk key, v) :: ms, r5)
                  | none => none
                else none
              | [] => none
            | none => none
          | _ => none
        | none => none
      else none
    | [] => none

/-- Elements of a JSON array after its opening bracket (non-empty case). -/
def parseElems : Nat → List Char → Option (List JValue × List Char)
  | 0, _ => none
  | fuel + 1, cs =>
    match parseVal fuel cs with
    | some (v, r1) =>
      match jsonWs r1 with
      | d :: r2 =>
        if d == ']' then some ([v], r2)
        else if d == ',' then
          match parseElems fuel r2 with
          | some (vs, r3) => some (v :: vs, r3)
          | none => none
        else none
      | [] => none
    | none => none

end

/-- Reference `json.loads`: parse a full JSON document, requiring nothing
but whitespace after the value. -/
def jsonParse (s : String) : Option JValue :=
  match parseVal (s.length + 1) s.toList with
  | some (v, rest) => if jsonWs rest = [] then some v else none
  | none => none

/-! ### Shared definitions and lemmas for the theorems -/

/-- The list of sleep durations `w a, w (a + 1), ..., w (a + n - 1)`:
what the loop sleeps across `n` consecutive retried attempts starting at
attempt index `a`, when each attempt's backoff is `w` of its index. -/
def backoffList (w : Nat → Nat) (a : Nat) : Nat → List Nat
  | 0 => []
  | n + 1 => w a :: backoffList w (a + 1) n

lemma bucketUI_rate {msg : String} (h : isRateUI msg = true) : bucketUI msg = .rateLimit := by
  simp [bucketUI, h]

lemma bucketUI_auth {msg : String} (hr : isRateUI msg = false) (ha : isAuthUI msg = true) :
    bucketUI msg = .auth := by
  simp [bucketUI, hr, ha]

lemma bucketUI_transient {msg : String} (hr : isRateUI msg = false) (ha : isAuthUI msg = false) :
    bucketUI msg = .transient := by
  simp [bucketUI, hr, ha]

/-- Exhausting the budget on rate-limited attempts: from attempt `a` with
`n + 1` iterations left, always-rate-limited messages yield the terminal
rate-limit error after all `n + 1` attempts, having slept `2 ^ i` seconds
after each attempt `i` except the last. -/
lemma geminiLoop_rate_all (g : Nat → String) (h : ∀ i, isRateUI (g i) = true) :
    ∀ n a, geminiLoop (fun i => .raised (g i)) a (n + 1) =
      ⟨.rateLimitExceeded (a + n + 1) (g (a + n)), backoffList (fun i => 2 ^ i) a n, n + 1⟩ := by
  intro n
  induction n with
  | zero => intro a; simp [geminiLoop, bucketUI_rate (h a), backoffList]
  | succ n ih =>
    intro a
    rw [geminiLoop]
    simp only [bucketUI_rate (h a), Nat.succ_pos, if_true, ih (a + 1), backoffList]
    simp only [show a + 1 + n = a + (n + 1) from by omega,
      show a + 1 + n + 1 = a + (n + 1) + 1 from by omega]

/-- Exhausting the budget on transient attempts: always-transient messages
yield the terminal transient error after all attempts, having slept
`1 + i` seconds after each attempt `i` except the last. -/
lemma geminiLoop_transient_all (g : Nat → String)
    (h : ∀ i, isRateUI (g i) = false ∧ isAuthUI (g i) = false) :
    ∀ n a, geminiLoop (fun i => .raised (g i)) a (n + 1) =
      ⟨.transientFailure (g (a + n)), backoffList (fun i => 1 + i) a n, n + 1⟩ := by
  intro n
  induction n with
  | zero =>
    intro a
    simp [geminiLoop, bucketUI_transient (h a).1 (h a).2, backoffList]
  | succ n ih =>
    intro a
    rw [geminiLoop]
    simp only [bucketUI_transient (h a).1 (h a).2, Nat.succ_pos, if_true, ih (a + 1), backoffList]
    simp only [show a + 1 + n = a + (n + 1) from by omega]

/-- The loop only reads upstream outcomes at indices from the current
attempt onwards. -/
lemma geminiLoop_congr (f g : Nat → GenOutcome) :
    ∀ n a, (∀ i, a ≤ i → f i = g i) → geminiLoop f a n = geminiLoop g a n := by
  intro n
  induction n with
  | zero => intro a _; rfl
  | succ n ih =>
    intro a h
    have hrec : geminiLoop f (a + 1) n = geminiLoop g (a + 1) n :=
      ih (a + 1) (fun i hi => h i (Nat.le_of_succ_le hi))
    rw [geminiLoop, geminiLoop, h a (Nat.le_refl a), hrec]

/-! ### The claims -/

/-- C1: if the upstream raises a rate-limit-marked error on every attempt
and `max_retries = 3`, `analyze_with_gemini` terminates with the
rate-limit error (carrying the attempt count and the last message) after
exactly 3 attempts, sleeping `2 ^ 0` then `2 ^ 1` seconds after the two
non-final attempts, for a total backoff of 3 seconds. -/
theorem gemini_rate_limit_exhausted (g : Nat → String)
    (h : ∀ i, isRateUI (g i) = true) :
    analyze_with_gemini (fun i => .raised (g i)) 3 =
      ⟨.rateLimitExceeded 3 (g 2), [2 ^ 0, 2 ^ 1], 3⟩ ∧
    (analyze_with_gemini (fun i => .raised (g i)) 3).sleeps.sum = 3 := by
  have h3 : (3 : Int).toNat = 2 + 1 := by decide
  have key := geminiLoop_rate_all g h 2 0
  rw [analyze_with_gemini, h3]
  rw [key]
  norm_num [backoffList]

theorem gemini_rate_limit_exhausted_witness :
    analyze_with_gemini (fun _ => .raised "429 quota exceeded") 3 =
      ⟨.rateLimitExceeded 3 "429 quota exceeded", [2 ^ 0, 2 ^ 1], 3⟩ :=
  (gemini_rate_limit_exhausted (fun _ => "429 quota exceeded")
    (fun _ => (by decide : isRateUI "429 quota exceeded" = true))).1

/-- C2 (amended): if the very first attempt raises an error whose message
contains an authentication marker and no rate-limit marker, both retry
loops abort immediately with the authentication failure — no sleeps, no
further attempts, whatever the remaining budget. (The un-amended claim,
without the no-rate-limit-marker condition, is refuted by
`auth_marker_overridden_by_rate_marker`.) -/
theorem auth_error_immediate (mr : Int) (hmr : 1 ≤ mr) :
    (∀ (f : Nat → GenOutcome) (msg : String), f 0 = .raised msg →
      isRateUI msg = false → isAuthUI msg = true →
      analyze_with_gemini f mr = ⟨.authenticationError msg, [], 1⟩) ∧
    (∀ (f : Nat → GenOutcome) (msg : String), f 0 = .raised msg →
      isRateAccept msg = false → isAuthAccept msg = true →
      analyze_resume_with_inputs f mr = ⟨.reraised msg, [], 1⟩) := by
  obtain ⟨n, hn⟩ : ∃ n, mr.toNat = n + 1 := ⟨mr.toNat - 1, by omega⟩
  constructor
  · intro f msg h0 hr ha
    rw [analyze_with_gemini, hn, geminiLoop, h0]
    simp [bucketUI_auth hr ha]
  · intro f msg h0 hr ha
    rw [analyze_resume_with_inputs, hn, acceptLoop, h0]
    simp [bucketAccept, hr, ha]

theorem auth_error_immediate_witness :
    analyze_with_gemini (fun _ => .raised "API authentication failed: 401") 3 =
      ⟨.authenticationError "API authentication failed: 401", [], 1⟩ ∧
    analyze_resume_with_inputs (fun _ => .raised "invalid API key (401)") 3 =
      ⟨.reraised "invalid API key (401)", [], 1⟩ :=
  ⟨(auth_error_immediate 3 (by decide)).1 _ _ rfl (by decide) (by decide),
   (auth_error_immediate 3 (by decide)).2 _ _ rfl (by decide) (by decide)⟩

/-- C2 (counterexample): a first-attempt message that contains an
authentication marker (`"api key"`) but also a rate-limit marker
(`"429"`) is not an immediate authentication failure: with budget 2 the
call sleeps one second, retries, and ends in the rate-limit error — the
claim's promised zero sleeps and zero further attempts do not hold. -/
theorem auth_marker_overridden_by_rate_marker :
    isAuthUI "429 api key" = true ∧
    analyze_with_gemini (fun _ => .raised "429 api key") 2 =
      ⟨.rateLimitExceeded 2 "429 api key", [1], 2⟩ := by decide

/-- C3 (amended): errors in the other/transient bucket are retried with
linear `1 + i` backoff, the last-attempt rule, and the transient terminal
error only by `analyze_with_gemini`; `analyze_resume_with_inputs` and
`analyze_resume` re-raise such errors immediately — one attempt, no
backoff, whatever the budget. -/
theorem transient_backoff_by_variant (mr : Int) (hmr : 1 ≤ mr) :
    (∀ g : Nat → String, (∀ i, isRateUI (g i) = false ∧ isAuthUI (g i) = false) →
      analyze_with_gemini (fun i => .raised (g i)) mr =
        ⟨.transientFailure (g (mr.toNat - 1)), backoffList (fun i => 1 + i) 0 (mr.toNat - 1),
          mr.toNat⟩) ∧
    (∀ (f : Nat → GenOutcome) (msg : String), f 0 = .raised msg →
      isRateAccept msg = false → isAuthAccept msg = false →
      analyze_resume_with_inputs f mr = ⟨.reraised msg, [], 1⟩) ∧
    (∀ (f : Nat → MatcherOutcome) (msg : String), f 0 = .raised msg →
      matcherLoop f 0 mr.toNat = ⟨.reraisedOther msg, [], 1⟩) := by
  obtain ⟨n, hn⟩ : ∃ n, mr.toNat = n + 1 := ⟨mr.toNat - 1, by omega⟩
  refine ⟨?_, ?_, ?_⟩
  · intro g h
    rw [analyze_with_gemini, hn, geminiLoop_transient_all g h n 0]
    simp [hn]
  · intro f msg h0 hr ha
    rw [analyze_resume_with_inputs, hn, acceptLoop, h0]
    simp [bucketAccept, hr, ha]
  · intro f msg h0
    rw [hn, matcherLoop, h0]

theorem transient_backoff_by_variant_witness :
    analyze_with_gemini (fun _ => .raised "server error 500") 3 =
      ⟨.transientFailure "server error 500", [1, 2], 3⟩ ∧
    analyze_resume_with_inputs (fun _ => .raised "server error 500") 3 =
      ⟨.reraised "server error 500", [], 1⟩ ∧
    matcherLoop (fun _ => .raised "server error 500") 0 3 =
      ⟨.reraisedOther "server error 500", [], 1⟩ := by
  refine ⟨?_, ?_, ?_⟩
  · have key := (transient_backoff_by_variant 3 (by decide)).1 (fun _ => "server error 500")
      (fun _ => ⟨(by decide : isRateUI "server error 500" = false),
        (by decide : isAuthUI "server error 500" = false)⟩)
    simpa [backoffList] using key
  · exact (transient_backoff_by_variant 3 (by decide)).2.1 _ _ rfl (by decide) (by decide)
  · exact (transient_backoff_by_variant 3 (by decide)).2.2 _ _ rfl

/-- C3 (counterexample): a transient-bucket error (no rate-limit and no
authentication marker) on attempt 0 with budget 3 is not retried by
`analyze_resume_with_inputs` or `analyze_resume`: one attempt, no `1 + i`
backoff sleep, immediate re-raise — against the claim's linear-backoff
retry. -/
theorem transient_not_retried_cex :
    isRateAccept "connection reset by peer" = false ∧
    isAuthAccept "connection reset by peer" = false ∧
    analyze_resume_with_inputs (fun _ => .raised "connection reset by peer") 3 =
      ⟨.reraised "connection reset by peer", [], 1⟩ ∧
    analyze_resume "j" "r" (fun _ => .raised "connection reset by peer") 3 =
      ⟨.reraisedOther "connection reset by peer", [], 1⟩ := by decide

/-- C4 (amended): in `analyze_with_gemini` the bucket is a case-insensitive
substring match — two messages equal up to letter case classify
identically; in `analyze_resume_with_inputs` the match is case-sensitive:
`"quota"` is rate-limited while its upper-cased form falls into the
other/transient bucket. -/
theorem classification_case_sensitivity :
    (∀ m1 m2 : String, lowerStr m1 = lowerStr m2 → bucketUI m1 = bucketUI m2) ∧
    bucketAccept "quota" = .rateLimit ∧ bucketAccept "QUOTA" = .transient := by
  refine ⟨?_, by decide, by decide⟩
  intro m1 m2 h
  simp only [bucketUI, isRateUI, isAuthUI, h]

theorem classification_case_sensitivity_witness :
    bucketUI "QuOtA LIMIT" = bucketUI "quota limit" ∧
    bucketAccept "quota" = .rateLimit ∧ bucketAccept "QUOTA" = .transient :=
  ⟨classification_case_sensitivity.1 "QuOtA LIMIT" "quota limit" (by decide),
   classification_case_sensitivity.2⟩

/-- C4 (counterexample): changing the case of the message `"quota"` to
`"QUOTA"` changes the bucket chosen by `analyze_resume_with_inputs`'
classifier, and with it the observable behaviour: budget 2 gives a
one-second sleep and a second attempt for `"quota"` but an immediate
re-raise for `"QUOTA"`. -/
theorem case_change_alters_accept_bucket :
    lowerStr "quota" = lowerStr "QUOTA" ∧
    bucketAccept "quota" = .rateLimit ∧ bucketAccept "QUOTA" = .transient ∧
    analyze_resume_with_inputs (fun _ => .raised "quota") 2 = ⟨.reraised "quota", [1], 2⟩ ∧
    analyze_resume_with_inputs (fun _ => .raised "QUOTA") 2 = ⟨.reraised "QUOTA", [], 1⟩ := by
  decide

/-- C5: with `max_retries` 0 or negative, `range(max_retries)` is empty, so
the loop body never runs: no upstream contact (0 attempts), but also no
exception of any kind — the functions fall off the end and return `None`
instead of raising the invalid-configuration error the spec requires. -/
theorem max_retries_nonpositive_returns_none :
    (∀ f : Nat → GenOutcome, analyze_with_gemini f 0 = ⟨.noneReturned, [], 0⟩) ∧
    (∀ f : Nat → GenOutcome, analyze_with_gemini f (-3) = ⟨.noneReturned, [], 0⟩) ∧
    (∀ f : Nat → MatcherOutcome, analyze_resume "jd" "resume" f 0 = ⟨.noneReturned, [], 0⟩) ∧
    (∀ f : Nat → MatcherOutcome, analyze_resume "jd" "resume" f (-1) = ⟨.noneReturned, [], 0⟩) :=
  ⟨fun _ => rfl, fun _ => rfl, fun _ => rfl, fun _ => rfl⟩

/-- C6 (amended): in `analyze_with_gemini`, an attempt whose response is
falsy, lacks a `text` attribute, or has empty text behaves exactly as if
the upstream had raised the empty-response error, which classifies into
the other/transient bucket (so it is retried with linear backoff and
consumes the attempt). In `analyze_resume_with_inputs`, only a falsy or
text-less response raises (and its error is re-raised with no retry),
while a present-but-empty text string is returned as a success. -/
theorem empty_response_handling :
    (∀ (f : Nat → GenOutcome) (a n : Nat),
      f a = .resp none ∨ f a = .resp (some "") →
      geminiLoop f a n =
        geminiLoop (fun i => if i = a then .raised emptyResponseMsg else f i) a n) ∧
    (isRateUI emptyResponseMsg = false ∧ isAuthUI emptyResponseMsg = false ∧
      bucketUI emptyResponseMsg = .transient) ∧
    (∀ (f : Nat → GenOutcome) (mr : Int), 1 ≤ mr → f 0 = .resp none →
      analyze_resume_with_inputs f mr = ⟨.reraised invalidResponseMsg, [], 1⟩) ∧
    (∀ mr : Int, 1 ≤ mr →
      analyze_resume_with_inputs (fun _ => .resp (some "")) mr = ⟨.success "", [], 1⟩) := by
  refine ⟨?_, ⟨by decide, by decide, by decide⟩, ?_, ?_⟩
  · intro f a n hcase
    cases n with
    | zero => rfl
    | succ n =>
      have hrec : geminiLoop f (a + 1) n =
          geminiLoop (fun i => if i = a then .raised emptyResponseMsg else f i) (a + 1) n := by
        apply geminiLoop_congr
        intro i hi
        rw [if_neg (by omega)]
      rcases hcase with h | h <;>
        · rw [geminiLoop, geminiLoop, h, hrec]
          simp
  · intro f mr hmr h0
    obtain ⟨n, hn⟩ : ∃ n, mr.toNat = n + 1 := ⟨mr.toNat - 1, by omega⟩
    rw [analyze_resume_with_inputs, hn, acceptLoop, h0]
    simp [bucketAccept, (by decide : isRateAccept invalidResponseMsg = false),
      (by decide : isAuthAccept invalidResponseMsg = false)]
  · intro mr hmr
    obtain ⟨n, hn⟩ : ∃ n, mr.toNat = n + 1 := ⟨mr.toNat - 1, by omega⟩
    rw [analyze_resume_with_inputs, hn, acceptLoop]

theorem empty_response_handling_witness :
    geminiLoop (fun _ => .resp none) 0 3 =
      geminiLoop (fun i => if i = 0 then .raised emptyResponseMsg else .resp none) 0 3 ∧
    analyze_resume_with_inputs (fun _ => .resp none) 3 =
      ⟨.reraised invalidResponseMsg, [], 1⟩ ∧
    analyze_resume_with_inputs (fun _ => .resp (some "")) 3 = ⟨.success "", [], 1⟩ :=
  ⟨empty_response_handling.1 (fun _ => .resp none) 0 3 (Or.inl rfl),
   empty_response_handling.2.2.1 (fun _ => .resp none) 3 (by decide) rfl,
   empty_response_handling.2.2.2 3 (by decide)⟩

/-- C6 (counterexample): `analyze_resume_with_inputs` returns an empty
`text` as a success on the first attempt — against the claim that an
empty text is treated as a retryable error and never returned.
(`analyze_with_gemini`, by contrast, raises and classifies it, exhausting
the budget into the transient terminal error on an always-empty
upstream.) -/
theorem accept_returns_empty_text_cex :
    analyze_resume_with_inputs (fun _ => .resp (some "")) 3 = ⟨.success "", [], 1⟩ ∧
    analyze_with_gemini (fun _ => .resp (some "")) 3 =
      ⟨.transientFailure emptyResponseMsg, [1, 2], 3⟩ := by decide

/-- C7: the JSON step of `parse_resume` first tries a direct parse of the
raw reply; on failure it takes the greedy span from the first opening to
the last closing brace (not balanced-brace matching — the span runs
across multiple JSON-like blocks) and parses that; if the span parses the
record is returned, and if the span fails to parse, or no span exists,
the step fails with the spec's `NoJsonFound` (a `ValueError`:
`_extract_json`'s own raise, or the escaping `json.JSONDecodeError`,
which is a `ValueError` subclass). Stated for an arbitrary parser `p`
standing for `json.loads`. -/
theorem salvage_extraction_behaviour (J : Type) (p : String → Option J) (raw : String) :
    (∀ v, p raw = some v → salvage p raw = .ok v) ∧
    (p raw = none → ∀ sub, extract_json raw = some sub →
      ((∀ v, p sub = some v → salvage p raw = .ok v) ∧
       (p sub = none → isNoJsonFound (salvage p raw) = true))) ∧
    (p raw = none → extract_json raw = none → salvage p raw = .noSpan) ∧
    extract_json "a\x7bb\x7dc\x7bd\x7de" = some "\x7bb\x7dc\x7bd\x7d" ∧
    extract_json "\x7ba\x7d text \x7bb\x7d" = some "\x7ba\x7d text \x7bb\x7d" := by
  refine ⟨?_, ?_, ?_, by decide, by decide⟩
  · intro v h; simp only [salvage, h]
  · intro hraw sub hsub
    constructor
    · intro v h; simp only [salvage, hraw, hsub, h]
    · intro h; simp only [salvage, hraw, hsub, h, isNoJsonFound]
  · intro hraw hspan; simp only [salvage, hraw, hspan]

theorem salvage_extraction_behaviour_witness :
    salvage jsonParse "no json here" = .noSpan ∧
    isNoJsonFound (salvage jsonParse "\x7bnot json\x7d") = true ∧
    salvage jsonParse "Here is the result: \x7b\"name\":\"Jane\"\x7d Thanks!" =
      .ok (JValue.obj [("name", JValue.str "Jane")]) :=
  ⟨(salvage_extraction_behaviour JValue jsonParse "no json here").2.2.1 rfl rfl,
   ((salvage_extraction_behaviour JValue jsonParse "\x7bnot json\x7d").2.1 rfl
      "\x7bnot json\x7d" rfl).2 rfl,
   ((salvage_extraction_behaviour JValue jsonParse
      "Here is the result: \x7b\"name\":\"Jane\"\x7d Thanks!").2.1 rfl
      "\x7b\"name\":\"Jane\"\x7d" rfl).1 _ rfl⟩

/-- C8 (amended): `parse_resume` returns exactly what the JSON parser
produced — either from the raw reply or from the salvaged span — with no
schema merging afterwards, so a field the model omitted is absent from
the returned mapping rather than present with an empty default; in
particular the reply containing only a `name` field yields a
single-field record. -/
theorem parsed_record_no_defaults (J : Type) (p : String → Option J) (raw : String) (v : J)
    (h : salvage p raw = .ok v) :
    (p raw = some v ∨ ∃ sub, extract_json raw = some sub ∧ p sub = some v) ∧
    salvage jsonParse "\x7b\"name\":\"Jane\"\x7d" =
      .ok (JValue.obj [("name", JValue.str "Jane")]) := by
  refine ⟨?_, rfl⟩
  cases hp : p raw with
  | some w => simp only [salvage, hp] at h; cases h; exact Or.inl rfl
  | none =>
    cases hs : extract_json raw with
    | none => simp only [salvage, hp, hs] at h; cases h
    | some sub =>
      cases hps : p sub with
      | none => simp only [salvage, hp, hs, hps] at h; cases h
      | some w =>
        simp only [salvage, hp, hs, hps] at h
        cases h
        exact Or.inr ⟨sub, rfl, hps⟩

theorem parsed_record_no_defaults_witness :
    jsonParse "\x7b\"name\":\"Jane\"\x7d" = some (JValue.obj [("name", JValue.str "Jane")]) ∨
    ∃ sub, extract_json "\x7b\"name\":\"Jane\"\x7d" = some sub ∧
      jsonParse sub = some (JValue.obj [("name", JValue.str "Jane")]) :=
  (parsed_record_no_defaults JValue jsonParse "\x7b\"name\":\"Jane\"\x7d"
    (JValue.obj [("name", JValue.str "Jane")]) rfl).1

/-- C8 (counterexample): extracting the reply that sets only `name` yields
a record whose mapping carries the single key `name`: the recognized
fields `email`, `skills` and `experience` are missing from it entirely,
not present with empty defaults as the claim states. -/
theorem parsed_record_missing_fields_cex :
    salvage jsonParse "\x7b\"name\":\"Jane\"\x7d" =
      .ok (JValue.obj [("name", JValue.str "Jane")]) ∧
    objHasKey "name" (JValue.obj [("name", JValue.str "Jane")]) = true ∧
    objHasKey "email" (JValue.obj [("name", JValue.str "Jane")]) = false ∧
    objHasKey "skills" (JValue.obj [("name", JValue.str "Jane")]) = false ∧
    objHasKey "experience" (JValue.obj [("name", JValue.str "Jane")]) = false :=
  ⟨rfl, rfl, rfl, rfl, rfl⟩

/-- C9: `analyze_resume` rejects a blank job description (or, when that is
non-blank, a blank resume) with the `ValueError` naming the blank field,
and it does so with zero upstream attempts — validation happens before
any network call. -/
theorem empty_input_validated_before_call (jd rt : String) (f : Nat → MatcherOutcome)
    (mr : Int) :
    (pyStrip jd = "" →
      analyze_resume jd rt f mr = ⟨.emptyInput "Job description cannot be empty", [], 0⟩) ∧
    (pyStrip jd ≠ "" → pyStrip rt = "" →
      analyze_resume jd rt f mr = ⟨.emptyInput "Resume text cannot be empty", [], 0⟩) := by
  constructor
  · intro h; rw [analyze_resume, if_pos h]
  · intro h1 h2; rw [analyze_resume, if_neg h1, if_pos h2]

theorem empty_input_validated_before_call_witness :
    analyze_resume " \t\n" "resume text" (fun _ => .resp "x") 3 =
      ⟨.emptyInput "Job description cannot be empty", [], 0⟩ ∧
    analyze_resume "job description" "  " (fun _ => .resp "x") 3 =
      ⟨.emptyInput "Resume text cannot be empty", [], 0⟩ :=
  ⟨(empty_input_validated_before_call " \t\n" "resume text" _ 3).1 (by decide),
   (empty_input_validated_before_call "job description" "  " _ 3).2 (by decide) (by decide)⟩

/-- C10: both classifiers test the rate-limit markers before the
authentication markers, so a message containing markers of both kinds is
classified rate-limit, never authentication; behaviourally, on a
non-final attempt `analyze_with_gemini` then sleeps `2 ^ 0` seconds and
continues into the next attempt instead of aborting. -/
theorem rate_limit_checked_before_auth :
    (∀ msg, isRateUI msg = true → isAuthUI msg = true → bucketUI msg = .rateLimit) ∧
    (∀ msg, isRateAccept msg = true → isAuthAccept msg = true → bucketAccept msg = .rateLimit) ∧
    (∀ (f : Nat → GenOutcome) (msg : String) (n : Nat), f 0 = .raised msg →
      isRateUI msg = true → isAuthUI msg = true → 0 < n →
      geminiLoop f 0 (n + 1) =
        ⟨(geminiLoop f 1 n).result, 2 ^ 0 :: (geminiLoop f 1 n).sleeps,
          (geminiLoop f 1 n).attempts + 1⟩) := by
  refine ⟨?_, ?_, ?_⟩
  · intro msg hr _; exact bucketUI_rate hr
  · intro msg hr _; simp [bucketAccept, hr]
  · intro f msg n h0 hr _ hn
    rw [geminiLoop, h0]
    simp [bucketUI_rate hr, hn]

theorem rate_limit_checked_before_auth_witness :
    bucketUI "429 api key" = .rateLimit ∧
    bucketAccept "429 API key" = .rateLimit ∧
    geminiLoop (fun _ => .raised "429 api key") 0 2 =
      ⟨(geminiLoop (fun _ => .raised "429 api key") 1 1).result,
        2 ^ 0 :: (geminiLoop (fun _ => .raised "429 api key") 1 1).sleeps,
        (geminiLoop (fun _ => .raised "429 api key") 1 1).attempts + 1⟩ :=
  ⟨rate_limit_checked_before_auth.1 "429 api key" (by decide) (by decide),
   rate_limit_checked_before_auth.2.1 "429 API key" (by decide) (by decide),
   rate_limit_checked_before_auth.2.2 _ "429 api key" 1 rfl (by decide) (by decide) (by decide)⟩

end JobAlign
